import Mathlib

/-!
Verification development for the mysqlTime calendar core (util/types/mytime.go).

The Go source stores a date/time value in a `mysqlTime` record (uint16 year,
uint8 month/day/hour/minute/second, uint32 microsecond) and derives day
numbers, week numbers, weekdays, signed time differences and decimal integer
encodings from it.  Go integer division and remainder truncate toward zero,
so they are embedded as `Int.tdiv` / `Int.tmod`; bitwise `x & 3` on two's
complement integers extracts the low bits and is embedded as `x % 4`
(Euclidean remainder).  Silent narrowing conversions such as `uint16(year)`
are embedded as Euclidean remainders by the corresponding power of two,
which agrees with two's complement wrap-around.
-/

/-- The central record: all fields stored as the (nonnegative) value of the
corresponding unsigned machine integer of the Go struct. -/
structure mysqlTime where
  year : Nat
  month : Nat
  day : Nat
  hour : Nat
  minute : Nat
  second : Nat
  microsecond : Nat
  deriving DecidableEq

/-- Accessor `Year()`, returning the widened `int` value. -/
def mysqlTime.Year (t : mysqlTime) : Int := t.year

/-- Accessor `Month()`. -/
def mysqlTime.Month (t : mysqlTime) : Int := t.month

/-- Accessor `Day()`. -/
def mysqlTime.Day (t : mysqlTime) : Int := t.day

/-- Accessor `Hour()`. -/
def mysqlTime.Hour (t : mysqlTime) : Int := t.hour

/-- Accessor `Minute()`. -/
def mysqlTime.Minute (t : mysqlTime) : Int := t.minute

/-- Accessor `Second()`. -/
def mysqlTime.Second (t : mysqlTime) : Int := t.second

/-- Accessor `Microsecond()`. -/
def mysqlTime.Microsecond (t : mysqlTime) : Int := t.microsecond

/-- Constructor `newMysqlTime`: each `int` argument is narrowed to the bit
width of its field (uint16 / uint8 / uint32), i.e. silently truncated. -/
def newMysqlTime (year month day hour minute second microsecond : Int) : mysqlTime :=
  { year := (year % 65536).toNat
    month := (month % 256).toNat
    day := (day % 256).toNat
    hour := (hour % 256).toNat
    minute := (minute % 256).toNat
    second := (second % 256).toNat
    microsecond := (microsecond % 4294967296).toNat }

/-- `calcDaynr`: days since 0000-00-00, with the zero-date special case. -/
def calcDaynr (year month day : Int) : Int :=
  if year = 0 ∧ month = 0 then 0
  else
    let delsum := 365 * year + 31 * (month - 1) + day
    let y := if month ≤ 2 then year - 1 else year
    let delsum2 := if month ≤ 2 then delsum else delsum - Int.tdiv (month * 4 + 23) 10
    let temp := Int.tdiv ((Int.tdiv y 100 + 1) * 3) 4
    delsum2 + Int.tdiv y 4 - temp

/-- `calcDaysInYear`: days in one year; `(year&3)==0` is embedded as
`year % 4 = 0` (low two bits), the Go `%` tests as truncating remainders. -/
def calcDaysInYear (year : Int) : Int :=
  if year % 4 = 0 ∧ (Int.tmod year 100 ≠ 0 ∨ (Int.tmod year 400 = 0 ∧ year ≠ 0)) then 366
  else 365

/-- `calcWeekday`: weekday from a day number, 0 = Monday. -/
def calcWeekday (daynr : Int) (sundayFirstDayOfWeek : Bool) : Int :=
  Int.tmod (daynr + 5 + (if sundayFirstDayOfWeek then 1 else 0)) 7

/-- Week behaviour flag: Sunday (unset) vs Monday (set) as first day of week. -/
def weekBehaviourMondayFirst : Nat := 1

/-- Week behaviour flag: week range 1-53 (year-relative numbering). -/
def weekBehaviourYear : Nat := 2

/-- Week behaviour flag: the week containing the first first-day-of-week is
week 1 (otherwise ISO 8601:1988 numbering). -/
def weekBehaviourFirstWeekday : Nat := 4

/-- `weekBehaviour.test`: `(v & flag) != 0`. -/
def weekBehaviour.test (v flag : Nat) : Bool := v &&& flag != 0

/-- `weekMode`: decode a MySQL week mode into the behaviour bit set;
`mode & 7` is embedded as `mode % 8` (low three bits). -/
def weekMode (mode : Int) : Nat :=
  let weekFormat := (mode % 8).toNat
  if weekFormat &&& weekBehaviourMondayFirst = 0 then weekFormat ^^^ weekBehaviourFirstWeekday
  else weekFormat

/-- Shared tail of `calcWeek`: everything after the first-partial-week-of-January
adjustment (the `days` computation, the last-week-of-December check, and the
final `days/7 + 1`). -/
def calcWeekRest (daynr firstDaynr weekday year : Int) (weekYear firstWeekday : Bool) :
    Int × Int :=
  let days :=
    if (firstWeekday ∧ weekday ≠ 0) ∨ (¬firstWeekday ∧ 4 ≤ weekday) then
      daynr - (firstDaynr + 7 - weekday)
    else daynr - (firstDaynr - weekday)
  if weekYear ∧ 52 * 7 ≤ days then
    let weekday2 := Int.tmod (weekday + calcDaysInYear year) 7
    if (¬firstWeekday ∧ weekday2 < 4) ∨ (firstWeekday ∧ weekday2 = 0) then (year + 1, 1)
    else (year, Int.tdiv days 7 + 1)
  else (year, Int.tdiv days 7 + 1)

/-- `calcWeek`: week and year for the time, under a behaviour bit set. -/
def calcWeek (t : mysqlTime) (wb : Nat) : Int × Int :=
  let daynr := calcDaynr t.Year t.Month t.Day
  let firstDaynr := calcDaynr t.Year 1 1
  let mondayFirst := weekBehaviour.test wb weekBehaviourMondayFirst
  let weekYear := weekBehaviour.test wb weekBehaviourYear
  let firstWeekday := weekBehaviour.test wb weekBehaviourFirstWeekday
  let weekday := calcWeekday firstDaynr (!mondayFirst)
  if t.Month = 1 ∧ t.Day ≤ 7 - weekday then
    if ¬weekYear ∧ ((firstWeekday ∧ weekday ≠ 0) ∨ (¬firstWeekday ∧ 4 ≤ weekday)) then
      (t.Year, 0)
    else
      let year2 := t.Year - 1
      let dy := calcDaysInYear year2
      calcWeekRest daynr (firstDaynr - dy) (Int.tmod (weekday + 53 * 7 - dy) 7) year2
        true firstWeekday
  else calcWeekRest daynr firstDaynr weekday t.Year weekYear firstWeekday

/-- `YearWeek`: zero-date sentinel, else `calcWeek` with the year flag forced. -/
def mysqlTime.YearWeek (t : mysqlTime) (mode : Int) : Int × Int :=
  if t.month = 0 ∨ t.day = 0 then (0, 0)
  else calcWeek t (weekMode mode ||| weekBehaviourYear)

/-- `Week`: zero-date sentinel, else the week component of `calcWeek`. -/
def mysqlTime.Week (t : mysqlTime) (mode : Int) : Int :=
  if t.month = 0 ∨ t.day = 0 then 0
  else (calcWeek t (weekMode mode)).2

/-- `SECONDS_IN_24H`. -/
def SECONDS_IN_24H : Int := 86400

/-- The signed microsecond quantity `tmp` computed inside `calcTimeDiff`
(no int64 overflow occurs for field values representable in the struct). -/
def timeDiffTmp (t1 t2 : mysqlTime) (sign : Int) : Int :=
  let days := calcDaynr t1.Year t1.Month t1.Day - sign * calcDaynr t2.Year t2.Month t2.Day
  (days * SECONDS_IN_24H + t1.Hour * 3600 + t1.Minute * 60 + t1.Second
      - sign * (t2.Hour * 3600 + t2.Minute * 60 + t2.Second)) * 1000000
    + t1.Microsecond - sign * t2.Microsecond

/-- `calcTimeDiff`: difference between two datetime values as
(seconds, microseconds, negative flag). -/
def calcTimeDiff (t1 t2 : mysqlTime) (sign : Int) : Int × Int × Bool :=
  let tmp := timeDiffTmp t1 t2 sign
  if tmp < 0 then (Int.tdiv (-tmp) 1000000, Int.tmod (-tmp) 1000000, true)
  else (Int.tdiv tmp 1000000, Int.tmod tmp 1000000, false)

/-- `datetimeToUint64`: YYYYMMDDHHMMSS packing into a uint64. -/
def datetimeToUint64 (t : mysqlTime) : Nat :=
  ((t.year * 10000 + t.month * 100 + t.day) * 1000000
      + (t.hour * 10000 + t.minute * 100 + t.second)) % 18446744073709551616

/-- `dateToUint64`: YYYYMMDD packing into a uint64. -/
def dateToUint64 (t : mysqlTime) : Nat :=
  (t.year * 10000 + t.month * 100 + t.day) % 18446744073709551616

/-- `timeToUint64`: HHMMSS packing into a uint64. -/
def timeToUint64 (t : mysqlTime) : Nat :=
  (t.hour * 10000 + t.minute * 100 + t.second) % 18446744073709551616

/-- The single error kind of this core (`ErrInvalidTimeFormat`). -/
inductive TimeError where
  | invalidTimeFormat
  deriving DecidableEq

/-- A normalized host calendar value (the decomposition of a `gotime.Time`
into date, clock and microsecond fields). -/
structure GoDate where
  year : Int
  month : Int
  day : Int
  hour : Int
  minute : Int
  second : Int
  microsecond : Int
  deriving DecidableEq

/-- Modelled from the spec: the proleptic Gregorian leap rule used by the
host calendar (`gotime.Date` normalization); the Go standard library is not
part of this repository. -/
def goLeap (y : Int) : Bool := y % 4 = 0 ∧ (y % 100 ≠ 0 ∨ y % 400 = 0)

/-- Modelled from the spec: days in a month of the host (proleptic
Gregorian) calendar. -/
def goDaysInMonth (y m : Int) : Int :=
  if m = 2 then (if goLeap y then 29 else 28)
  else if m = 4 ∨ m = 6 ∨ m = 9 ∨ m = 11 then 30
  else 31

/-- Month preceding `(y, m)` in the civil calendar. -/
def prevMonth (y m : Int) : Int × Int := if m = 1 then (y - 1, 12) else (y, m - 1)

/-- Modelled from the spec: carrying surplus days month by month, the host
normalization of a day count that exceeds the length of its month (fuel
bounds the number of carries; it is never exhausted for field values
representable in the struct). -/
def normDays : Nat → Int → Int → Int → Int × Int × Int
  | 0, y, m, d => (y, m, d)
  | fuel + 1, y, m, d =>
    if goDaysInMonth y m < d then
      normDays fuel (if m = 12 then y + 1 else y) (if m = 12 then 1 else m + 1)
        (d - goDaysInMonth y m)
    else (y, m, d)

/-- Modelled from the spec: the host-normalized time built by
`gotime.Date(year, month, day, hour, minute, second, microsecond*1000, Local)`
and decomposed back by `Date()`, `Clock()` and `Nanosecond()/1000`.  The Go
standard library is not part of this repository; per the spec the host
builds the nearest valid normalized date (carrying surplus
nanoseconds/seconds/minutes/hours upward, wrapping month 0 to December of
the previous year, and letting day 0 underflow to the last day of the
previous month), and the local-time round trip is field-preserving. -/
def goNorm (t : mysqlTime) : GoDate :=
  let nsec0 : Nat := t.microsecond * 1000
  let sec0 : Nat := t.second + nsec0 / 1000000000
  let nsec1 : Nat := nsec0 % 1000000000
  let min0 : Nat := t.minute + sec0 / 60
  let sec1 : Nat := sec0 % 60
  let hour0 : Nat := t.hour + min0 / 60
  let min1 : Nat := min0 % 60
  let day0 : Nat := t.day + hour0 / 24
  let hour1 : Nat := hour0 % 24
  let m0 : Int := (t.month : Int) - 1
  let y1 : Int := (t.year : Int) + m0 / 12
  let m1 : Int := m0 % 12 + 1
  let r : Int × Int × Int :=
    if day0 = 0 then
      ((prevMonth y1 m1).1, (prevMonth y1 m1).2,
        goDaysInMonth (prevMonth y1 m1).1 (prevMonth y1 m1).2)
    else normDays 400 y1 m1 (day0 : Int)
  { year := r.1, month := r.2.1, day := r.2.2,
    hour := (hour1 : Int), minute := (min1 : Int), second := (sec1 : Int),
    microsecond := (nsec1 : Int) / 1000 }

/-- `GoTime`: build the host-normalized value, decompose it, and fail with
`InvalidTimeFormat` when any decomposed field differs from the original;
the normalized value is returned in both cases. -/
def mysqlTime.GoTime (t : mysqlTime) : GoDate × Option TimeError :=
  let tm := goNorm t
  if tm.year ≠ t.Year ∨ tm.month ≠ t.Month ∨ tm.day ≠ t.Day ∨ tm.hour ≠ t.Hour ∨
      tm.minute ≠ t.Minute ∨ tm.second ≠ t.Second ∨ tm.microsecond ≠ t.Microsecond then
    (tm, some TimeError.invalidTimeFormat)
  else (tm, none)

/-- Modelled from the spec: absolute day count of a civil date (days since
1970-01-01), used only to read the weekday and year-day off a normalized
host value. -/
def daysFromCivil (y m d : Int) : Int :=
  let y2 := if m ≤ 2 then y - 1 else y
  let era := y2 / 400
  let yoe := y2 - era * 400
  let mp := if 2 < m then m - 3 else m + 9
  let doy := (153 * mp + 2) / 5 + d - 1
  let doe := yoe * 365 + yoe / 4 - yoe / 100 + doy
  era * 146097 + doe - 719468

/-- Modelled from the spec: the host weekday (Sunday = 0) of a normalized
value; 1970-01-01 was a Thursday. -/
def goWeekdayOf (tm : GoDate) : Int := (daysFromCivil tm.year tm.month tm.day + 4) % 7

/-- `Weekday`: delegate to `GoTime`, substituting the zero sentinel on error. -/
def mysqlTime.Weekday (t : mysqlTime) : Int :=
  match t.GoTime with
  | (_, some _) => 0
  | (tm, none) => goWeekdayOf tm

/-- `YearDay`: delegate to `GoTime`, substituting the zero sentinel on error. -/
def mysqlTime.YearDay (t : mysqlTime) : Int :=
  match t.GoTime with
  | (_, some _) => 0
  | (tm, none) => daysFromCivil tm.year tm.month tm.day - daysFromCivil tm.year 1 1 + 1

/-- Day count of a month under the code's own calendar: February is decided
by `calcDaysInYear` (which makes year 0 a common year), every other month by
the fixed Gregorian lengths.  Used to state which dates are valid. -/
def daysInMonthMy (y m : Int) : Int :=
  if m = 2 then (if calcDaysInYear y = 366 then 29 else 28)
  else if m = 4 ∨ m = 6 ∨ m = 9 ∨ m = 11 then 30
  else 31

/-- A valid calendar date, per the calendar of the code itself. -/
def validDate (y m d : Int) : Prop :=
  1 ≤ m ∧ m ≤ 12 ∧ 1 ≤ d ∧ d ≤ daysInMonthMy y m

instance (y m d : Int) : Decidable (validDate y m d) := by
  unfold validDate; infer_instance

/-- The calendar day following `(y, m, d)` (per `daysInMonthMy`). -/
def nextDate (y m d : Int) : Int × Int × Int :=
  if d < daysInMonthMy y m then (y, m, d + 1)
  else if m < 12 then (y, m + 1, 1) else (y + 1, 1, 1)

/-- The closed-form of claim C3, assembled the way the claim words it:
start from `365*year + 31*(month-1) + day`; if month <= 2 decrement the year
used for the leap corrections, else subtract `(month*4+23)/10` (truncating);
finally add `year/4 - ((year/100+1)*3)/4` with truncating divisions. -/
def calcDaynrClosedForm (year month day : Int) : Int :=
  if year = 0 ∧ month = 0 then 0
  else if month ≤ 2 then
    365 * year + 31 * (month - 1) + day
      + Int.tdiv (year - 1) 4 - Int.tdiv ((Int.tdiv (year - 1) 100 + 1) * 3) 4
  else
    365 * year + 31 * (month - 1) + day - Int.tdiv (month * 4 + 23) 10
      + Int.tdiv year 4 - Int.tdiv ((Int.tdiv year 100 + 1) * 3) 4

/-- Claim C3: `calcDaynr` equals the closed-form of the spec: 0 for the
zero-date sentinel (year 0, month 0), and otherwise the accumulated
`365*year + 31*(month-1) + day` with the month correction and the truncating
leap corrections applied exactly as stated. -/
theorem calcDaynr_eq_closedForm (year month day : Int) :
    calcDaynr year month day = calcDaynrClosedForm year month day := by
  simp only [calcDaynr, calcDaynrClosedForm]
  by_cases h0 : year = 0 ∧ month = 0
  · rw [if_pos h0, if_pos h0]
  · rw [if_neg h0, if_neg h0]
    by_cases h2 : month ≤ 2
    · simp only [if_pos h2]
    · simp only [if_neg h2]

/-- Claim C9: construction never fails and validates nothing: every accessor
returns its input reduced modulo the bit width of the field (2^16 for year,
2^8 for month/day/hour/minute/second, 2^32 for microsecond), and an in-range
input is returned unchanged. -/
theorem newMysqlTime_truncates (year month day hour minute second microsecond : Int) :
    (newMysqlTime year month day hour minute second microsecond).Year = year % 65536 ∧
    (newMysqlTime year month day hour minute second microsecond).Month = month % 256 ∧
    (newMysqlTime year month day hour minute second microsecond).Day = day % 256 ∧
    (newMysqlTime year month day hour minute second microsecond).Hour = hour % 256 ∧
    (newMysqlTime year month day hour minute second microsecond).Minute = minute % 256 ∧
    (newMysqlTime year month day hour minute second microsecond).Second = second % 256 ∧
    (newMysqlTime year month day hour minute second microsecond).Microsecond
      = microsecond % 4294967296 ∧
    (0 ≤ year → year < 65536 →
      (newMysqlTime year month day hour minute second microsecond).Year = year) ∧
    (0 ≤ month → month < 256 →
      (newMysqlTime year month day hour minute second microsecond).Month = month) ∧
    (0 ≤ day → day < 256 →
      (newMysqlTime year month day hour minute second microsecond).Day = day) ∧
    (0 ≤ hour → hour < 256 →
      (newMysqlTime year month day hour minute second microsecond).Hour = hour) ∧
    (0 ≤ minute → minute < 256 →
      (newMysqlTime year month day hour minute second microsecond).Minute = minute) ∧
    (0 ≤ second → second < 256 →
      (newMysqlTime year month day hour minute second microsecond).Second = second) ∧
    (0 ≤ microsecond → microsecond < 4294967296 →
      (newMysqlTime year month day hour minute second microsecond).Microsecond
        = microsecond) := by
  simp only [newMysqlTime, mysqlTime.Year, mysqlTime.Month, mysqlTime.Day, mysqlTime.Hour,
    mysqlTime.Minute, mysqlTime.Second, mysqlTime.Microsecond]
  omega

/-- Witness for claim C9 at concrete inputs: out-of-range inputs wrap, an
in-range year is preserved. -/
theorem newMysqlTime_truncates_witness :
    (newMysqlTime 70000 300 300 300 300 300 5000000000).Year = 70000 % 65536 ∧
    ((0:Int) ≤ 2016 → (2016:Int) < 65536 →
      (newMysqlTime 2016 12 31 23 59 59 999999).Year = 2016) :=
  ⟨(newMysqlTime_truncates 70000 300 300 300 300 300 5000000000).1,
    (newMysqlTime_truncates 2016 12 31 23 59 59 999999).2.2.2.2.2.2.2.1⟩

/-- Claim C7: decoding the decimal digits of `datetimeToUint64 t` by place
value recovers every field when the fields are within their declared ranges,
and the 14-digit value is not truncated by the uint64 reduction. -/
theorem datetimeToUint64_decode (t : mysqlTime)
    (h1 : t.year ≤ 9999) (h2 : t.month ≤ 12) (h3 : t.day ≤ 31)
    (h4 : t.hour ≤ 23) (h5 : t.minute ≤ 59) (h6 : t.second ≤ 59) :
    datetimeToUint64 t % 100 = t.second ∧
    datetimeToUint64 t / 100 % 100 = t.minute ∧
    datetimeToUint64 t / 10000 % 100 = t.hour ∧
    datetimeToUint64 t / 1000000 % 100 = t.day ∧
    datetimeToUint64 t / 100000000 % 100 = t.month ∧
    datetimeToUint64 t / 10000000000 = t.year ∧
    datetimeToUint64 t = (t.year * 10000 + t.month * 100 + t.day) * 1000000
      + (t.hour * 10000 + t.minute * 100 + t.second) := by
  simp only [datetimeToUint64]
  have hmod : ((t.year * 10000 + t.month * 100 + t.day) * 1000000
        + (t.hour * 10000 + t.minute * 100 + t.second)) % 18446744073709551616
      = (t.year * 10000 + t.month * 100 + t.day) * 1000000
        + (t.hour * 10000 + t.minute * 100 + t.second) :=
    Nat.mod_eq_of_lt (by omega)
  rw [hmod]
  omega

/-- Witness for claim C7 at 2016-11-30 23:59:58. -/
theorem datetimeToUint64_decode_witness :
    datetimeToUint64 (newMysqlTime 2016 11 30 23 59 58 7) % 100
        = (newMysqlTime 2016 11 30 23 59 58 7).second ∧
    datetimeToUint64 (newMysqlTime 2016 11 30 23 59 58 7) / 100 % 100
        = (newMysqlTime 2016 11 30 23 59 58 7).minute ∧
    datetimeToUint64 (newMysqlTime 2016 11 30 23 59 58 7) / 10000 % 100
        = (newMysqlTime 2016 11 30 23 59 58 7).hour ∧
    datetimeToUint64 (newMysqlTime 2016 11 30 23 59 58 7) / 1000000 % 100
        = (newMysqlTime 2016 11 30 23 59 58 7).day ∧
    datetimeToUint64 (newMysqlTime 2016 11 30 23 59 58 7) / 100000000 % 100
        = (newMysqlTime 2016 11 30 23 59 58 7).month ∧
    datetimeToUint64 (newMysqlTime 2016 11 30 23 59 58 7) / 10000000000
        = (newMysqlTime 2016 11 30 23 59 58 7).year ∧
    datetimeToUint64 (newMysqlTime 2016 11 30 23 59 58 7)
        = ((newMysqlTime 2016 11 30 23 59 58 7).year * 10000
            + (newMysqlTime 2016 11 30 23 59 58 7).month * 100
            + (newMysqlTime 2016 11 30 23 59 58 7).day) * 1000000
          + ((newMysqlTime 2016 11 30 23 59 58 7).hour * 10000
            + (newMysqlTime 2016 11 30 23 59 58 7).minute * 100
            + (newMysqlTime 2016 11 30 23 59 58 7).second) :=
  datetimeToUint64_decode (newMysqlTime 2016 11 30 23 59 58 7)
    (by decide) (by decide) (by decide) (by decide) (by decide) (by decide)

/-- Claim C5: 2000-01-01 (a Saturday, host weekday 6): mode 0 yields week 0
of year 2000 while mode 3 exercises the year-rollback branch and yields week
52 of 1999; the returned year components differ. -/
theorem calcWeek_boundary_2000 :
    (newMysqlTime 2000 1 1 0 0 0 0).Weekday = 6 ∧
    calcWeek (newMysqlTime 2000 1 1 0 0 0 0) (weekMode 0) = (2000, 0) ∧
    calcWeek (newMysqlTime 2000 1 1 0 0 0 0) (weekMode 3) = (1999, 52) ∧
    (calcWeek (newMysqlTime 2000 1 1 0 0 0 0) (weekMode 0)).1
      ≠ (calcWeek (newMysqlTime 2000 1 1 0 0 0 0) (weekMode 3)).1 := by
  decide

/-- Claim C8: February 30, 2016 does not exist: `GoTime` fails with
`InvalidTimeFormat`, while `dateToUint64` on the same value still encodes
20160230 without any validity check. -/
theorem feb30_invalid_but_encoded :
    (newMysqlTime 2016 2 30 0 0 0 0).GoTime.2 = some TimeError.invalidTimeFormat ∧
    dateToUint64 (newMysqlTime 2016 2 30 0 0 0 0) = 20160230 := by
  decide

/-- The signed quantity inside `calcTimeDiff` is exactly negated when the
two arguments are swapped (with `sign = 1`). -/
theorem timeDiffTmp_swap (a b : mysqlTime) : timeDiffTmp b a 1 = -timeDiffTmp a b 1 := by
  simp only [timeDiffTmp]
  ring

/-- Counterexample to claim C6 as stated: with equal arguments,
`calcTimeDiff` returns `(0, 0, false)` in both orders, so the negative flag
is not flipped. -/
theorem calcTimeDiff_not_antisym_at_equal :
    calcTimeDiff (newMysqlTime 2016 1 1 0 0 0 0) (newMysqlTime 2016 1 1 0 0 0 0) 1
        = (0, 0, false) ∧
    calcTimeDiff (newMysqlTime 2016 1 1 0 0 0 0) (newMysqlTime 2016 1 1 0 0 0 0) 1
        ≠ (0, 0, true) := by
  decide

/-- Claim C6 as amended: `calcTimeDiff` with `sign = 1` is anti-symmetric
whenever the magnitude is nonzero: swapping the arguments returns the same
(seconds, microseconds) with the negative flag flipped. -/
theorem calcTimeDiff_antisym (a b : mysqlTime) (s u : Int) (neg : Bool)
    (h : calcTimeDiff a b 1 = (s, u, neg)) (hsu : ¬(s = 0 ∧ u = 0)) :
    calcTimeDiff b a 1 = (s, u, !neg) := by
  have hswap := timeDiffTmp_swap a b
  simp only [calcTimeDiff] at h ⊢
  rw [hswap]
  rcases lt_trichotomy (timeDiffTmp a b 1) 0 with hlt | heq | hgt
  · rw [if_pos hlt] at h
    simp only [Prod.mk.injEq] at h
    obtain ⟨hs, hu, hn⟩ := h
    subst hs; subst hu; subst hn
    rw [if_neg (by omega)]
    simp
  · rw [heq, if_neg (by omega)] at h
    simp only [Prod.mk.injEq] at h
    have hz1 : Int.tdiv 0 1000000 = 0 := by decide
    have hz2 : Int.tmod 0 1000000 = 0 := by decide
    rw [hz1, hz2] at h
    exact absurd ⟨h.1.symm, h.2.1.symm⟩ hsu
  · rw [if_neg (by omega)] at h
    simp only [Prod.mk.injEq] at h
    obtain ⟨hs, hu, hn⟩ := h
    subst hs; subst hu; subst hn
    rw [if_pos (by omega)]
    simp

/-- Witness for the amended claim C6 at a concrete pair one second and five
microseconds apart. -/
theorem calcTimeDiff_antisym_witness :
    calcTimeDiff (newMysqlTime 2016 2 29 23 59 59 0) (newMysqlTime 2016 3 1 0 0 0 5) 1
      = (1, 5, true) :=
  calcTimeDiff_antisym (newMysqlTime 2016 3 1 0 0 0 5) (newMysqlTime 2016 2 29 23 59 59 0)
    1 5 false (by decide) (by decide)

/-- Every month, in the host calendar, has at least one day. -/
theorem goDaysInMonth_pos (y m : Int) : 1 ≤ goDaysInMonth y m := by
  unfold goDaysInMonth
  split
  · split <;> norm_num
  · split <;> norm_num

/-- The previous month of a month in range stays in range. -/
theorem prevMonth_month_range (y m : Int) (h1 : 1 ≤ m) (h2 : m ≤ 12) :
    1 ≤ (prevMonth y m).2 ∧ (prevMonth y m).2 ≤ 12 := by
  unfold prevMonth
  split <;> constructor <;> simp <;> omega

/-- The month-carry loop keeps the month in range. -/
theorem normDays_month_range (fuel : Nat) (y m d : Int) (h1 : 1 ≤ m) (h2 : m ≤ 12) :
    1 ≤ (normDays fuel y m d).2.1 ∧ (normDays fuel y m d).2.1 ≤ 12 := by
  induction fuel generalizing y m d with
  | zero => exact ⟨h1, h2⟩
  | succ n ih =>
    simp only [normDays]
    split
    · exact ih _ _ _ (by split <;> omega) (by split <;> omega)
    · exact ⟨h1, h2⟩

/-- The month-carry loop keeps the day positive. -/
theorem normDays_day_pos (fuel : Nat) (y m d : Int) (hd : 1 ≤ d) :
    1 ≤ (normDays fuel y m d).2.2 := by
  induction fuel generalizing y m d with
  | zero => exact hd
  | succ n ih =>
    simp only [normDays]
    split
    case isTrue h => exact ih _ _ _ (by omega)
    case isFalse h => exact hd

/-- The month of the host-normalized value lies in 1..12. -/
theorem goNorm_month_range (t : mysqlTime) :
    1 ≤ (goNorm t).month ∧ (goNorm t).month ≤ 12 := by
  have h0 := Int.emod_nonneg ((t.month : Int) - 1) (by norm_num : (12:Int) ≠ 0)
  have h1 := Int.emod_lt_of_pos ((t.month : Int) - 1) (by norm_num : (0:Int) < 12)
  simp only [goNorm]
  split
  · exact prevMonth_month_range _ _ (by omega) (by omega)
  · exact normDays_month_range 400 _ _ _ (by omega) (by omega)

/-- The day of the host-normalized value is at least 1. -/
theorem goNorm_day_pos (t : mysqlTime) : 1 ≤ (goNorm t).day := by
  simp only [goNorm]
  split
  case isTrue h => exact goDaysInMonth_pos _ _
  case isFalse h => exact normDays_day_pos 400 _ _ _ (by omega)

/-- A zero month or zero day always fails the round-trip check of `GoTime`:
the normalized month is in 1..12 and the normalized day is at least 1. -/
theorem goTime_fails_of_zero (t : mysqlTime) (h : t.month = 0 ∨ t.day = 0) :
    t.GoTime.2 = some TimeError.invalidTimeFormat := by
  have hm := goNorm_month_range t
  have hd := goNorm_day_pos t
  simp only [mysqlTime.GoTime]
  rcases h with h | h
  · rw [if_pos (Or.inr (Or.inl (by simp only [mysqlTime.Month]; omega)))]
  · rw [if_pos (Or.inr (Or.inr (Or.inl (by simp only [mysqlTime.Day]; omega))))]

/-- Claim C2: with month 0 or day 0, `Week` and `YearWeek` return their
sentinel before any normalization, for every mode, and `Weekday` and
`YearDay` return their zero sentinel (because normalization always fails
the round-trip check on such values). -/
theorem zero_date_sentinel (t : mysqlTime) (mode : Int) (h : t.month = 0 ∨ t.day = 0) :
    t.Week mode = 0 ∧ t.YearWeek mode = (0, 0) ∧ t.Weekday = 0 ∧ t.YearDay = 0 := by
  have hg := goTime_fails_of_zero t h
  have hpair : t.GoTime = (t.GoTime.1, some TimeError.invalidTimeFormat) := Prod.ext rfl hg
  refine ⟨?_, ?_, ?_, ?_⟩
  · simp only [mysqlTime.Week]
    rw [if_pos h]
  · simp only [mysqlTime.YearWeek]
    rw [if_pos h]
  · simp only [mysqlTime.Weekday]
    rw [hpair]
  · simp only [mysqlTime.YearDay]
    rw [hpair]

/-- Witness for claim C2 at a value with month 0. -/
theorem zero_date_sentinel_witness :
    ((newMysqlTime 2015 0 15 23 1 2 3).month = 0 ∨ (newMysqlTime 2015 0 15 23 1 2 3).day = 0) ∧
    ((newMysqlTime 2015 0 15 23 1 2 3).Week 4 = 0 ∧
      (newMysqlTime 2015 0 15 23 1 2 3).YearWeek 4 = (0, 0) ∧
      (newMysqlTime 2015 0 15 23 1 2 3).Weekday = 0 ∧
      (newMysqlTime 2015 0 15 23 1 2 3).YearDay = 0) :=
  ⟨Or.inl (by decide), zero_date_sentinel (newMysqlTime 2015 0 15 23 1 2 3) 4 (Or.inl (by decide))⟩

/-- Claim C1: `GoTime` validates by round-trip: it returns the normalized
value in all cases, fails exactly when some decomposed field differs from
the original, and the only error it can return is `InvalidTimeFormat`. -/
theorem goTime_roundtrip_validation (t : mysqlTime) :
    t.GoTime.1 = goNorm t ∧
    (t.GoTime.2 = some TimeError.invalidTimeFormat ↔
      ¬((goNorm t).year = t.Year ∧ (goNorm t).month = t.Month ∧ (goNorm t).day = t.Day ∧
        (goNorm t).hour = t.Hour ∧ (goNorm t).minute = t.Minute ∧
        (goNorm t).second = t.Second ∧ (goNorm t).microsecond = t.Microsecond)) ∧
    (t.GoTime.2 = none ↔
      ((goNorm t).year = t.Year ∧ (goNorm t).month = t.Month ∧ (goNorm t).day = t.Day ∧
        (goNorm t).hour = t.Hour ∧ (goNorm t).minute = t.Minute ∧
        (goNorm t).second = t.Second ∧ (goNorm t).microsecond = t.Microsecond)) := by
  simp only [mysqlTime.GoTime]
  by_cases h : (goNorm t).year ≠ t.Year ∨ (goNorm t).month ≠ t.Month ∨
      (goNorm t).day ≠ t.Day ∨ (goNorm t).hour ≠ t.Hour ∨ (goNorm t).minute ≠ t.Minute ∨
      (goNorm t).second ≠ t.Second ∨ (goNorm t).microsecond ≠ t.Microsecond
  · rw [if_pos h]
    refine ⟨rfl, ?_, ?_⟩ <;> simp <;> tauto
  · rw [if_neg h]
    push_neg at h
    refine ⟨rfl, ?_, ?_⟩ <;> simp <;> tauto

/-- For a positive year, `calcDaynr` rewritten with Euclidean division
(every truncating division in it has nonnegative operands). -/
theorem calcDaynr_ediv (y m d : Int) (hy : 1 ≤ y) (hm : 1 ≤ m) :
    calcDaynr y m d =
      if m ≤ 2 then
        365 * y + 31 * (m - 1) + d + (y - 1) / 4 - (((y - 1) / 100 + 1) * 3) / 4
      else
        365 * y + 31 * (m - 1) + d - (m * 4 + 23) / 10 + y / 4 - ((y / 100 + 1) * 3) / 4 := by
  simp only [calcDaynr]
  rw [if_neg (by omega)]
  by_cases h2 : m ≤ 2
  · simp only [if_pos h2]
    have e1 : Int.tdiv (y - 1) 100 = (y - 1) / 100 := Int.tdiv_eq_ediv (by omega) (by omega)
    rw [e1]
    have e2 : Int.tdiv (((y - 1) / 100 + 1) * 3) 4 = (((y - 1) / 100 + 1) * 3) / 4 :=
      Int.tdiv_eq_ediv (by omega) (by omega)
    rw [e2]
    have e3 : Int.tdiv (y - 1) 4 = (y - 1) / 4 := Int.tdiv_eq_ediv (by omega) (by omega)
    rw [e3]
  · simp only [if_neg h2]
    have e1 : Int.tdiv y 100 = y / 100 := Int.tdiv_eq_ediv (by omega) (by omega)
    rw [e1]
    have e2 : Int.tdiv ((y / 100 + 1) * 3) 4 = ((y / 100 + 1) * 3) / 4 :=
      Int.tdiv_eq_ediv (by omega) (by omega)
    rw [e2]
    have e3 : Int.tdiv y 4 = y / 4 := Int.tdiv_eq_ediv (by omega) (by omega)
    rw [e3]
    have e4 : Int.tdiv (m * 4 + 23) 10 = (m * 4 + 23) / 10 := Int.tdiv_eq_ediv (by omega) (by omega)
    rw [e4]

/-- For year 0 (where the decremented year makes some truncating divisions
hit `-1`, all yielding 0), `calcDaynr` in closed Euclidean form. -/
theorem calcDaynr_year_zero (m d : Int) (hm : 1 ≤ m) :
    calcDaynr 0 m d =
      if m ≤ 2 then 31 * (m - 1) + d
      else 31 * (m - 1) + d - (m * 4 + 23) / 10 := by
  simp only [calcDaynr]
  rw [if_neg (by omega)]
  by_cases h2 : m ≤ 2
  · simp only [if_pos h2]
    norm_num
    have e1 : Int.tdiv 1 100 = 0 := by decide
    have e2 : Int.tdiv 1 4 = 0 := by decide
    rw [e1, e2]
    norm_num
    decide
  · simp only [if_neg h2]
    have e1 : Int.tdiv (0:Int) 100 = 0 := by decide
    have e2 : Int.tdiv (0:Int) 4 = 0 := by decide
    rw [e1, e2]
    norm_num
    have e3 : Int.tdiv (3:Int) 4 = 0 := by decide
    rw [e3]
    have e4 : Int.tdiv (m * 4 + 23) 10 = (m * 4 + 23) / 10 := Int.tdiv_eq_ediv (by omega) (by omega)
    rw [e4]
    ring

/-- `calcDaysInYear` with its truncating remainders rewritten to Euclidean
remainders, valid for nonnegative years. -/
theorem calcDaysInYear_of_nonneg (y : Int) (hy : 0 ≤ y) :
    calcDaysInYear y =
      if y % 4 = 0 ∧ (y % 100 ≠ 0 ∨ (y % 400 = 0 ∧ y ≠ 0)) then 366 else 365 := by
  unfold calcDaysInYear
  have e1 : Int.tmod y 100 = y % 100 := Int.tmod_eq_emod hy (by norm_num)
  have e2 : Int.tmod y 400 = y % 400 := Int.tmod_eq_emod hy (by norm_num)
  rw [e1, e2]

set_option maxHeartbeats 1600000 in
/-- Claim C4: on valid dates (with nonnegative year, per the calendar of the
code itself), `calcDaynr` is strictly increasing as the date advances by one
calendar day: the successor date has day number exactly one larger, and
within a month consecutive days differ by exactly one. -/
theorem calcDaynr_succ_date (y m d y2 m2 d2 : Int) (hy : 0 ≤ y) (hv : validDate y m d)
    (hnext : nextDate y m d = (y2, m2, d2)) :
    calcDaynr y2 m2 d2 = calcDaynr y m d + 1 ∧
    (2 ≤ d → calcDaynr y m d - calcDaynr y m (d - 1) = 1) := by
  obtain ⟨hm1, hm2, hd1, hd2⟩ := hv
  constructor
  · simp only [nextDate] at hnext
    by_cases hlt : d < daysInMonthMy y m
    · rw [if_pos hlt] at hnext
      simp only [Prod.mk.injEq] at hnext
      obtain ⟨e1, e2, e3⟩ := hnext
      subst e1; subst e2; subst e3
      rcases (by omega : y = 0 ∨ 1 ≤ y) with h0 | h1
      · subst h0
        rw [calcDaynr_year_zero m (d + 1) hm1, calcDaynr_year_zero m d hm1]
        by_cases h2 : m ≤ 2
        · rw [if_pos h2, if_pos h2]
          omega
        · rw [if_neg h2, if_neg h2]
          omega
      · rw [calcDaynr_ediv y m (d + 1) h1 hm1, calcDaynr_ediv y m d h1 hm1]
        by_cases h2 : m ≤ 2
        · rw [if_pos h2, if_pos h2]
          omega
        · rw [if_neg h2, if_neg h2]
          omega
    · rw [if_neg hlt] at hnext
      have hdm : d = daysInMonthMy y m := by omega
      subst hdm
      by_cases h12 : m < 12
      · rw [if_pos h12] at hnext
        simp only [Prod.mk.injEq] at hnext
        obtain ⟨e1, e2, e3⟩ := hnext
        subst e1; subst e2; subst e3
        rcases (by omega : y = 0 ∨ 1 ≤ y) with h0 | h1
        · subst h0
          rw [calcDaynr_year_zero (m + 1) 1 (by omega), calcDaynr_year_zero m _ hm1]
          unfold daysInMonthMy
          rw [show calcDaysInYear 0 = 365 from by decide]
          interval_cases m <;> split_ifs <;> omega
        · rw [calcDaynr_ediv y (m + 1) 1 (by omega) (by omega),
            calcDaynr_ediv y m _ h1 hm1]
          unfold daysInMonthMy
          rw [calcDaysInYear_of_nonneg y (by omega)]
          interval_cases m <;> split_ifs <;>
            first
              | omega
              | (have hA : y / 100 = 4 * (y / 400) + y % 400 / 100 := by omega
                 have hC : y % 400 / 100 = 0 ∨ y % 400 / 100 = 1 ∨
                     y % 400 / 100 = 2 ∨ y % 400 / 100 = 3 := by omega
                 rcases hC with hC | hC | hC | hC <;> omega)
      · rw [if_neg h12] at hnext
        simp only [Prod.mk.injEq] at hnext
        obtain ⟨e1, e2, e3⟩ := hnext
        subst e1; subst e2; subst e3
        have hm12 : m = 12 := by omega
        subst hm12
        rcases (by omega : y = 0 ∨ 1 ≤ y) with h0 | h1
        · subst h0
          decide
        · rw [calcDaynr_ediv (y + 1) 1 1 (by omega) (by omega),
            calcDaynr_ediv y 12 _ h1 (by omega)]
          unfold daysInMonthMy
          rw [calcDaysInYear_of_nonneg y (by omega)]
          split_ifs <;> omega
  · intro hdge
    rcases (by omega : y = 0 ∨ 1 ≤ y) with h0 | h1
    · subst h0
      rw [calcDaynr_year_zero m d hm1, calcDaynr_year_zero m (d - 1) hm1]
      by_cases h2 : m ≤ 2
      · rw [if_pos h2, if_pos h2]
        omega
      · rw [if_neg h2, if_neg h2]
        omega
    · rw [calcDaynr_ediv y m d h1 hm1, calcDaynr_ediv y m (d - 1) h1 hm1]
      by_cases h2 : m ≤ 2
      · rw [if_pos h2, if_pos h2]
        omega
      · rw [if_neg h2, if_neg h2]
        omega

/-- Witness for claim C4 at 2016-02-29 (leap year), whose successor is
2016-03-01. -/
theorem calcDaynr_succ_date_witness :
    validDate 2016 2 29 ∧ nextDate 2016 2 29 = (2016, 3, 1) ∧
    (calcDaynr 2016 3 1 = calcDaynr 2016 2 29 + 1 ∧
      ((2:Int) ≤ 29 → calcDaynr 2016 2 29 - calcDaynr 2016 2 (29 - 1) = 1)) :=
  ⟨by decide, by decide,
    calcDaynr_succ_date 2016 2 29 2016 3 1 (by norm_num) (by decide) (by decide)⟩

/-- A truncating remainder by 7 of a nonnegative value lies in 0..6. -/
theorem tmod7_range (x : Int) (hx : 0 ≤ x) : 0 ≤ Int.tmod x 7 ∧ Int.tmod x 7 ≤ 6 := by
  rw [Int.tmod_eq_emod hx (by norm_num)]
  have h1 := Int.emod_nonneg x (by norm_num : (7:Int) ≠ 0)
  have h2 := Int.emod_lt_of_pos x (by norm_num : (0:Int) < 7)
  omega

/-- `calcWeekday` of a nonnegative day number lies in 0..6. -/
theorem calcWeekday_range (daynr : Int) (b : Bool) (h : 0 ≤ daynr) :
    0 ≤ calcWeekday daynr b ∧ calcWeekday daynr b ≤ 6 := by
  unfold calcWeekday
  exact tmod7_range _ (by cases b <;> simp <;> omega)

/-- `calcDaysInYear` only returns 365 or 366. -/
theorem calcDaysInYear_bounds (y : Int) : calcDaysInYear y = 365 ∨ calcDaysInYear y = 366 := by
  unfold calcDaysInYear
  split
  · right; rfl
  · left; rfl

/-- January 1 of a nonnegative year has a nonnegative day number. -/
theorem calcDaynr_jan1_nonneg (y : Int) (hy : 0 ≤ y) : 0 ≤ calcDaynr y 1 1 := by
  rcases (by omega : y = 0 ∨ 1 ≤ y) with h0 | h1
  · subst h0
    rw [calcDaynr_year_zero 1 1 (by norm_num)]
    norm_num
  · rw [calcDaynr_ediv y 1 1 h1 (by norm_num)]
    rw [if_pos (by norm_num : (1:Int) ≤ 2)]
    omega

/-- Within January, the day number is the day number of January 1 plus the
day offset. -/
theorem calcDaynr_month1_offset (y d : Int) :
    calcDaynr y 1 d = calcDaynr y 1 1 + (d - 1) := by
  simp only [calcDaynr]
  norm_num
  omega

/-- From February on, the day number is at least a week past January 1. -/
theorem calcDaynr_ge_of_month_ge_two (y m d : Int) (hy : 0 ≤ y) (hm : 2 ≤ m) (hd : 1 ≤ d) :
    calcDaynr y 1 1 + 7 ≤ calcDaynr y m d := by
  rcases (by omega : y = 0 ∨ 1 ≤ y) with h0 | h1
  · subst h0
    rw [calcDaynr_year_zero m d (by omega), calcDaynr_year_zero 1 1 (by norm_num)]
    rw [if_pos (by norm_num : (1:Int) ≤ 2)]
    by_cases h2 : m ≤ 2
    · rw [if_pos h2]
      omega
    · rw [if_neg h2]
      omega
  · rw [calcDaynr_ediv y m d h1 (by omega), calcDaynr_ediv y 1 1 h1 (by norm_num)]
    rw [if_pos (by norm_num : (1:Int) ≤ 2)]
    by_cases h2 : m ≤ 2
    · rw [if_pos h2]
      omega
    · rw [if_neg h2]
      omega

/-- With the year-relative flag set, the shared tail of `calcWeek` returns a
week of at least 1 whenever the date lies at or past the end of the first
(possibly partial) week of the year. -/
theorem calcWeekRest_week_pos (daynr firstDaynr weekday year : Int) (firstWeekday : Bool)
    (hw0 : 0 ≤ weekday) (hw6 : weekday ≤ 6) (h : firstDaynr + 7 - weekday ≤ daynr) :
    1 ≤ (calcWeekRest daynr firstDaynr weekday year true firstWeekday).2 := by
  have he1 : 0 ≤ daynr - (firstDaynr + 7 - weekday) := by omega
  have he2 : 0 ≤ daynr - (firstDaynr - weekday) := by omega
  have g1 : 1 ≤ Int.tdiv (daynr - (firstDaynr + 7 - weekday)) 7 + 1 := by
    rw [Int.tdiv_eq_ediv he1 (by norm_num)]
    omega
  have g2 : 1 ≤ Int.tdiv (daynr - (firstDaynr - weekday)) 7 + 1 := by
    rw [Int.tdiv_eq_ediv he2 (by norm_num)]
    omega
  simp only [calcWeekRest]
  split_ifs <;> first | exact le_refl 1 | exact g1 | exact g2

/-- With the year-relative flag set, `calcWeek` never returns week 0 on a
date whose month and day are at least 1: the early week-0 return requires
the flag to be unset, and every other path yields a week of at least 1. -/
theorem calcWeek_week_pos_of_yearFlag (t : mysqlTime) (wb : Nat)
    (hwy : weekBehaviour.test wb weekBehaviourYear = true)
    (hm : 1 ≤ t.month) (hd : 1 ≤ t.day) :
    1 ≤ (calcWeek t wb).2 := by
  have hy : (0:Int) ≤ t.Year := Int.natCast_nonneg t.year
  have hd1 : (1:Int) ≤ t.Day := by
    simp only [mysqlTime.Day]
    omega
  have hfd0 : 0 ≤ calcDaynr t.Year 1 1 := calcDaynr_jan1_nonneg t.Year hy
  have hwd := calcWeekday_range (calcDaynr t.Year 1 1)
    (!weekBehaviour.test wb weekBehaviourMondayFirst) hfd0
  simp only [calcWeek]
  rw [hwy]
  split
  case isTrue hcond =>
    rw [if_neg (by simp)]
    obtain ⟨hm1, hdle⟩ := hcond
    have hdy := calcDaysInYear_bounds (t.Year - 1)
    have harg : 0 ≤ calcWeekday (calcDaynr t.Year 1 1)
        (!weekBehaviour.test wb weekBehaviourMondayFirst) + 53 * 7
        - calcDaysInYear (t.Year - 1) := by omega
    have hw2 := tmod7_range _ harg
    apply calcWeekRest_week_pos
    · exact hw2.1
    · exact hw2.2
    · rw [hm1]
      have hoff := calcDaynr_month1_offset t.Year t.Day
      omega
  case isFalse hcond =>
    apply calcWeekRest_week_pos
    · exact hwd.1
    · exact hwd.2
    · by_cases hm1 : t.Month = 1
      · rw [hm1]
        have hoff := calcDaynr_month1_offset t.Year t.Day
        omega
      · have hm2 : (2:Int) ≤ t.Month := by
          simp only [mysqlTime.Month] at hm1 ⊢
          omega
        have hge := calcDaynr_ge_of_month_ge_two t.Year t.Month t.Day hy hm2 hd1
        omega

/-- The year-relative flag is set in any behaviour set that has it ORed in. -/
theorem orTwo_and_two_ne_zero (x : Nat) : (x ||| 2) &&& 2 ≠ 0 := by
  intro h
  have h1 : ((x ||| 2) &&& 2).testBit 1 = false := by
    rw [h]
    exact Nat.zero_testBit 1
  rw [Nat.testBit_and, Nat.testBit_or] at h1
  have h2 : Nat.testBit 2 1 = true := by decide
  rw [h2] at h1
  simp at h1

/-- Claim C10: `YearWeek` always ORs the year-relative flag into the
behaviour set, so for any value with month and day at least 1 and any mode
the returned week number is at least 1 (week 0 is unreachable). -/
theorem yearWeek_week_ge_one (t : mysqlTime) (mode : Int)
    (hm : 1 ≤ t.month) (hd : 1 ≤ t.day) :
    1 ≤ (t.YearWeek mode).2 := by
  simp only [mysqlTime.YearWeek]
  rw [if_neg (by omega)]
  refine calcWeek_week_pos_of_yearFlag t _ ?_ hm hd
  simp only [weekBehaviour.test, weekBehaviourYear, bne_iff_ne, ne_eq, decide_eq_true_eq]
  exact orTwo_and_two_ne_zero (weekMode mode)

/-- Witness for claim C10 at 2000-01-01 with mode 0 (a first-partial-week
date that rolls back into week 52 of 1999). -/
theorem yearWeek_week_ge_one_witness :
    1 ≤ ((newMysqlTime 2000 1 1 0 0 0 0).YearWeek 0).2 :=
  yearWeek_week_ge_one (newMysqlTime 2000 1 1 0 0 0 0) 0 (by decide) (by decide)
